/-
Verification of the watchdog supervisor (src/watchdog.py) against its
natural-language specification.  The Python functions are shallowly
embedded as pure Lean functions; subprocess results, raised exceptions and
network behaviour are passed in explicitly as environment values.
-/
import Mathlib

namespace Watchdog

/-- Python `needle is a prefix of hay` on character lists. -/
def hasPre : List Char → List Char → Bool
  | [], _ => true
  | _ :: _, [] => false
  | a :: as, b :: bs => a = b && hasPre as bs

/-- Python substring containment (`needle in hay`) on character lists. -/
def hasSub (needle : List Char) : List Char → Bool
  | [] => hasPre needle []
  | c :: rest => hasPre needle (c :: rest) || hasSub needle rest

/-- Python `needle in hay` for strings. -/
def strContains (hay needle : String) : Bool :=
  hasSub needle.data hay.data

/-- Splits a character list at every character satisfying `p`. -/
def splitCharsAux (p : Char → Bool) : List Char → List Char → List String
  | cur, [] => [String.mk cur.reverse]
  | cur, c :: rest =>
    if p c then String.mk cur.reverse :: splitCharsAux p [] rest
    else splitCharsAux p (c :: cur) rest

/-- Python `str.splitlines()` (modelled as splitting on the newline). -/
def splitLines (s : String) : List String :=
  splitCharsAux (fun c => c = '\n') [] s.data

/-- Python `str.split()` with no argument: split on whitespace, drop empties. -/
def splitWs (s : String) : List String :=
  (splitCharsAux (fun c => c = ' ' || c = '\t') [] s.data).filter fun t => t ≠ ""

/-- One service's configuration entry (`CONFIG["services"][name]`), with the
optional fields the source reads. -/
structure ServiceConfig where
  health_check_command : Option String
  launchd_label : Option String
  systemd_unit : Option String
  port : Option Nat
  restart_command : Option String
  log_file : Option String
deriving DecidableEq

/-- Result of one `subprocess.run` call: it either completed with a return
code and captured stdout, or raised (missing binary, timeout, non-zero exit
under check=True, ...). -/
inductive ProcResult where
  | ok (returncode : Int) (stdout : String)
  | exn
deriving DecidableEq

/-- Environment of `check_service_health`: the outcome each probe
sub-operation would have if invoked. -/
structure ProbeEnv where
  healthCmd : ProcResult
  launchctlList : ProcResult
  systemctlIsActive : ProcResult
  lsofPort : ProcResult
deriving DecidableEq

/-- A recorded subprocess invocation together with the timeout bound the
source passes to `subprocess.run` (`none` when the call has no timeout). -/
structure SubprocCall where
  argv : List String
  timeout : Option Nat
deriving DecidableEq

/-- The launchd stdout scan of `check_service_health` (lines 312-319):
first line containing the label decides; `parts[0] == "-"` or
`parts[1] != "0"` fails; a line with fewer than two fields raises IndexError
which the surrounding `except` turns into False; no matching line (the
`for`-`else`) is False.  Returns true exactly when the scan falls through to
the remaining checks. -/
def launchdScan (label : String) : List String → Bool
  | [] => false
  | l :: rest =>
    if strContains l label then
      match splitWs l with
      | p0 :: p1 :: _ => decide (p0 ≠ "-" ∧ p1 = "0")
      | _ => false
    else launchdScan label rest

/-- Port stage of `check_service_health` (lines 337-347): `lsof -i :port`
with no timeout; "LISTEN" must appear in stdout; any exception is False;
with no port configured the probe returns True (line 349). -/
def probePort (cfg : ServiceConfig) (env : ProbeEnv) (acc : List SubprocCall) :
    Bool × List SubprocCall :=
  match cfg.port with
  | none => (true, acc)
  | some p =>
    let acc2 := acc ++ [SubprocCall.mk ["lsof", "-i", ":" ++ toString p, "-P", "-n"] none]
    match env.lsofPort with
    | ProcResult.exn => (false, acc2)
    | ProcResult.ok _ out => (strContains out "LISTEN", acc2)

/-- Systemd stage of `check_service_health` (lines 324-334): `systemctl
is-active` with no timeout; stripped stdout must equal "active"; any
exception is False; otherwise fall through to the port stage. -/
def probeSystemd (cfg : ServiceConfig) (env : ProbeEnv) (acc : List SubprocCall) :
    Bool × List SubprocCall :=
  match cfg.systemd_unit with
  | none => probePort cfg env acc
  | some u =>
    let acc2 := acc ++ [SubprocCall.mk ["systemctl", "is-active", u] none]
    match env.systemctlIsActive with
    | ProcResult.exn => (false, acc2)
    | ProcResult.ok _ out =>
      if out.trim = "active" then probePort cfg env acc2 else (false, acc2)

/-- Launchd stage of `check_service_health` (lines 305-321): `launchctl
list` with no timeout; the stdout scan decides; any exception is False;
a passing scan falls through to the systemd stage. -/
def probeLaunchd (cfg : ServiceConfig) (env : ProbeEnv) (acc : List SubprocCall) :
    Bool × List SubprocCall :=
  match cfg.launchd_label with
  | none => probeSystemd cfg env acc
  | some label =>
    let acc2 := acc ++ [SubprocCall.mk ["launchctl", "list"] none]
    match env.launchctlList with
    | ProcResult.exn => (false, acc2)
    | ProcResult.ok _ out =>
      if launchdScan label (splitLines out) then probeSystemd cfg env acc2
      else (false, acc2)

/-- `check_service_health` (lines 283-349), also recording every subprocess
invocation it performs.  `none` for the configuration means the service name
is not in the services map (line 286-287).  A configured custom health
command (lines 292-302) runs under `timeout=10` and short-circuits; its exit
code 0 means healthy and any exception means False. -/
def check_service_health_run (cfgOpt : Option ServiceConfig) (env : ProbeEnv) :
    Bool × List SubprocCall :=
  match cfgOpt with
  | none => (false, [])
  | some cfg =>
    match cfg.health_check_command with
    | some cmd =>
      let calls := [SubprocCall.mk [cmd] (some 10)]
      match env.healthCmd with
      | ProcResult.exn => (false, calls)
      | ProcResult.ok code _ => (decide (code = 0), calls)
    | none => probeLaunchd cfg env []

/-- The boolean verdict of `check_service_health`. -/
def check_service_health (cfgOpt : Option ServiceConfig) (env : ProbeEnv) : Bool :=
  (check_service_health_run cfgOpt env).1

/-- The restart method `simple_restart` selects (lines 361-386). -/
inductive RestartMethod where
  | launchd
  | systemd
  | custom
  | noMethod
deriving DecidableEq

/-- Outcome of one restart command run under `check=True`: it either
completed with exit 0 or raised. -/
inductive CmdOutcome where
  | ok
  | exn
deriving DecidableEq

/-- Environment of `simple_restart`: the outcome each candidate restart
command would have, and the probe environment seen after the settle sleep. -/
structure RestartEnv where
  launchdKickstart : CmdOutcome
  systemdRestart : CmdOutcome
  customRestart : CmdOutcome
  settleProbe : ProbeEnv
deriving DecidableEq

/-- What `simple_restart` did: the method chosen and, when a command was
issued and completed, the settle sleep (seconds) before re-probing. -/
structure RestartTrace where
  method : RestartMethod
  settleSecs : Option Nat
deriving DecidableEq

/-- The `if`/`elif`/`elif`/`else` chain of `simple_restart` (lines 363-386):
launchd label first, then systemd unit, then custom restart command, else no
method. -/
def restartMethodOf (cfg : ServiceConfig) : RestartMethod :=
  if cfg.launchd_label.isSome then RestartMethod.launchd
  else if cfg.systemd_unit.isSome then RestartMethod.systemd
  else if cfg.restart_command.isSome then RestartMethod.custom
  else RestartMethod.noMethod

/-- The environment outcome of the selected restart command. -/
def methodOutcome (m : RestartMethod) (env : RestartEnv) : CmdOutcome :=
  match m with
  | RestartMethod.launchd => env.launchdKickstart
  | RestartMethod.systemd => env.systemdRestart
  | RestartMethod.custom => env.customRestart
  | RestartMethod.noMethod => CmdOutcome.exn

/-- `simple_restart` body for a known service (lines 358-392): no configured
method is an immediate failure; a raising command is caught and returns
False; a completed command is followed by `time.sleep(5)` and the verdict of
a fresh `check_service_health`. -/
def simple_restart_run (cfg : ServiceConfig) (env : RestartEnv) :
    Bool × RestartTrace :=
  if restartMethodOf cfg = RestartMethod.noMethod then
    (false, RestartTrace.mk RestartMethod.noMethod none)
  else
    match methodOutcome (restartMethodOf cfg) env with
    | CmdOutcome.exn => (false, RestartTrace.mk (restartMethodOf cfg) none)
    | CmdOutcome.ok =>
      (check_service_health (some cfg) env.settleProbe,
       RestartTrace.mk (restartMethodOf cfg) (some 5))

/-- `simple_restart` (lines 352-392); `none` means the service name is not
in the services map (line 355-356). -/
def simple_restart (cfgOpt : Option ServiceConfig) (env : RestartEnv) : Bool :=
  match cfgOpt with
  | none => false
  | some cfg => (simple_restart_run cfg env).1

/-- Environment of one service on one tick of `monitor_loop`: the probe
verdict (line 596), the verdict `simple_restart` would produce if invoked
(line 607), and the agent dispatch outcome if invoked (line 615, unused by
the counter bookkeeping). -/
structure TickInput where
  healthy : Bool
  restartOk : Bool
  agentOk : Bool
deriving DecidableEq

/-- Observable events of the loop body, in program order. -/
inductive Ev where
  | probeEv (healthy : Bool)
  | restartEv (ok : Bool)
  | dispatchEv
  | sleepEv (secs : Nat)
deriving DecidableEq

/-- Result of one service's slice of a tick: the counter after the slice,
whether a restart was attempted, whether the agent was dispatched, the
largest value the counter held at any point inside the slice, and the event
trace of the slice. -/
structure StepResult where
  count : Nat
  restartAttempted : Bool
  dispatched : Bool
  peak : Nat
  events : List Ev
deriving DecidableEq

/-- The per-service body of `monitor_loop` (lines 595-617).  Healthy: reset
the counter when positive (lines 598-600).  Unhealthy: increment (line 603);
while the incremented counter is at most `max_simple_restarts`, attempt a
restart, resetting on success (lines 606-611); past the threshold, dispatch
the agent, reset the counter unconditionally, and sleep 300 seconds before
anything further runs (lines 613-617). -/
def serviceStep (maxR c : Nat) (inp : TickInput) : StepResult :=
  if inp.healthy then
    StepResult.mk (if c > 0 then 0 else c) false false c [Ev.probeEv true]
  else if c + 1 ≤ maxR then
    if inp.restartOk then
      StepResult.mk 0 true false (c + 1) [Ev.probeEv false, Ev.restartEv true]
    else
      StepResult.mk (c + 1) true false (c + 1) [Ev.probeEv false, Ev.restartEv false]
  else
    StepResult.mk 0 false true (c + 1) [Ev.probeEv false, Ev.dispatchEv, Ev.sleepEv 300]

/-- One service followed across a list of ticks: final counter value and the
per-tick dispatch flags. -/
def runTicks (maxR : Nat) : Nat → List TickInput → Nat × List Bool
  | c, [] => (c, [])
  | c, inp :: rest =>
    let r := serviceStep maxR c inp
    let t := runTicks maxR r.count rest
    (t.1, r.dispatched :: t.2)

/-- One full service pass of a tick (the `for service in services` loop,
lines 595-617): each service's starting counter and tick environment, giving
the concatenated event trace and the counters after the pass. -/
def servicePass (maxR : Nat) : List (Nat × TickInput) → List Ev × List Nat
  | [] => ([], [])
  | (c, inp) :: rest =>
    let r := serviceStep maxR c inp
    let t := servicePass maxR rest
    (r.events ++ t.1, r.count :: t.2)

/-- The successive counter values of one service across a list of ticks
(the value the counter holds after each slice). -/
def countTrace (maxR : Nat) : Nat → List TickInput → List Nat
  | _, [] => []
  | c, inp :: rest =>
    (serviceStep maxR c inp).count :: countTrace maxR (serviceStep maxR c inp).count rest

/-- Outcome of the `git fetch origin` in the update-check block of
`monitor_loop` (lines 634-639): it either completed with some exit code
(there is no check=True, so a non-zero exit does not raise) or raised
(e.g. the 30-second timeout expired). -/
inductive FetchRes where
  | completed (exitCode : Int)
  | raised
deriving DecidableEq

/-- Environment of one repository inside the update-check block: whether the
path exists, the fetch outcome, and the two rev-parse answers (the remote
one reflecting whatever state the fetch attempt left behind). -/
structure RepoEnv where
  pathExists : Bool
  fetch : FetchRes
  localCommit : String
  remoteCommit : String
deriving DecidableEq

/-- What the update-check block concluded for one repository. -/
inductive RepoOutcome where
  | skippedNoPath
  | errorLogged
  | upToDate
  | dispatchedUpdate
deriving DecidableEq

/-- The per-repository body of the update-check block (lines 625-663): a
missing path is logged and skipped; an exception anywhere in the block is
caught and logged (line 662-663); otherwise the fetch exit code is ignored
and the local/remote rev-parse comparison alone decides between "up to date"
and dispatching the update agent (lines 656-660). -/
def monitorRepoCheck (env : RepoEnv) : RepoOutcome :=
  if env.pathExists = false then RepoOutcome.skippedNoPath
  else
    match env.fetch with
    | FetchRes.raised => RepoOutcome.errorLogged
    | FetchRes.completed _ =>
      if env.localCommit = env.remoteCommit then RepoOutcome.upToDate
      else RepoOutcome.dispatchedUpdate

/-- The update-check phase of one tick (lines 620-663): when repositories
are configured and the interval has elapsed, `last_update_check` is set to
`now` (line 623) and every repository is checked; otherwise nothing runs.
Returns the new `last_update_check` and the per-repository outcomes. -/
def updatePhase (interval lastCheck now : Int) (repos : List RepoEnv) :
    Int × List RepoOutcome :=
  if repos.isEmpty = false ∧ now - lastCheck ≥ interval then
    (now, repos.map monitorRepoCheck)
  else (lastCheck, [])

/-- Events of the update-check phase, in program order. -/
inductive UEv where
  | setLastCheck (t : Int)
  | repoCheck (o : RepoOutcome)
deriving DecidableEq

/-- Event trace of the update-check phase: the assignment of
`last_update_check` (line 623) precedes every repository check (the loop at
line 625). -/
def updatePhaseEvents (interval lastCheck now : Int) (repos : List RepoEnv) :
    List UEv :=
  if repos.isEmpty = false ∧ now - lastCheck ≥ interval then
    UEv.setLastCheck now :: repos.map (fun r => UEv.repoCheck (monitorRepoCheck r))
  else []

/-- Environment of the `check_git_updates` tool (lines 105-189): whether the
repo name is configured, whether its path exists, whether the fetch (run
under check=True, line 131) completed, whether the rev-parse calls (also
check=True) completed, and the resulting local/remote commits. -/
structure ToolEnv where
  repoKnown : Bool
  pathExists : Bool
  fetchOk : Bool
  revParseOk : Bool
  localCommit : String
  remoteCommit : String
deriving DecidableEq

/-- Result classes of the `check_git_updates` tool: the first three are
`is_error` results, the last the success report with its `has_updates`
flag. -/
inductive GitToolOutcome where
  | unknownRepo
  | noPath
  | errorCaught
  | report (hasUpdates : Bool)
deriving DecidableEq

/-- `check_git_updates` tool (lines 105-189): unknown repo and missing path
are error results; a raising fetch or rev-parse is caught (line 185) and
returned as an error result; otherwise `has_updates` is the inequality of
the two commits (line 161). -/
def check_git_updates (env : ToolEnv) : GitToolOutcome :=
  if env.repoKnown = false then GitToolOutcome.unknownRepo
  else if env.pathExists = false then GitToolOutcome.noPath
  else if env.fetchOk = false then GitToolOutcome.errorCaught
  else if env.revParseOk = false then GitToolOutcome.errorCaught
  else GitToolOutcome.report (decide (env.localCommit ≠ env.remoteCommit))

/-- Whether a tool outcome carries `is_error: True`. -/
def gitToolIsError (o : GitToolOutcome) : Bool :=
  match o with
  | GitToolOutcome.unknownRepo => true
  | GitToolOutcome.noPath => true
  | GitToolOutcome.errorCaught => true
  | GitToolOutcome.report _ => false

/-- The recognised SDK transport-race test of `invoke_update_agent`
(line 505): the error text contains "ProcessTransport is not ready" or
"TaskGroup". -/
def isTransportRace (msg : String) : Bool :=
  strContains msg "ProcessTransport is not ready" || strContains msg "TaskGroup"

/-- Behaviour of the streamed agent query: it either finished normally or
raised with some error text. -/
inductive AgentRun where
  | finished
  | raised (msg : String)
deriving DecidableEq

/-- How an agent invocation ended, as seen from outside: it always returns
(never raises), and a failure is either notified outward, notified but the
notification itself raised and was swallowed (`except: pass`), unnotified
for lack of credentials, or silently swallowed as the known race. -/
inductive DispatchResult where
  | completed
  | failedNotified
  | failedNotifySwallowed
  | failedNoCreds
  | swallowedSilently
deriving DecidableEq

/-- `invoke_agent` (lines 395-451): a raised agent error is caught (line
437), logged, and when Telegram credentials are configured a fallback
notification is posted, its own errors swallowed (lines 440-451).  There is
no transport-race special case on this path. -/
def invoke_agent (run : AgentRun) (creds postOk : Bool) : DispatchResult :=
  match run with
  | AgentRun.finished => DispatchResult.completed
  | AgentRun.raised _ =>
    if creds then
      if postOk then DispatchResult.failedNotified
      else DispatchResult.failedNotifySwallowed
    else DispatchResult.failedNoCreds

/-- `invoke_update_agent` (lines 454-522): a raised agent error matching the
transport race is only logged, with no notification (lines 505-507); any
other error is logged and, with credentials, notified with the
notification's own errors swallowed (lines 509-522). -/
def invoke_update_agent (run : AgentRun) (creds postOk : Bool) : DispatchResult :=
  match run with
  | AgentRun.finished => DispatchResult.completed
  | AgentRun.raised msg =>
    if isTransportRace msg then DispatchResult.swallowedSilently
    else if creds then
      if postOk then DispatchResult.failedNotified
      else DispatchResult.failedNotifySwallowed
    else DispatchResult.failedNoCreds

/-- Environment of the Telegram send: whether `requests.post` would raise,
whether the response would be ok, and the response text. -/
structure TgEnv where
  postRaises : Bool
  respOk : Bool
  respText : String
deriving DecidableEq

/-- Result of `send_telegram_tool`: the `is_error` flag of the returned
dict, whether a network call was attempted, and the content text. -/
structure TgSend where
  is_error : Bool
  networkCalled : Bool
  content : String
deriving DecidableEq

/-- `send_telegram_tool` (lines 61-97): with an empty bot token or chat id
it returns the not-configured error result before any network activity
(lines 70-74); otherwise it posts, a raising post is caught into an error
result (lines 93-97), an ok response is success, and a non-ok response is an
error result (lines 85-92).  The function is total: no input makes it
raise. -/
def send_telegram (token chatId message : String) (env : TgEnv) : TgSend :=
  if token = "" ∨ chatId = "" then
    TgSend.mk true false "Telegram not configured (missing token or chat ID)"
  else if env.postRaises then
    TgSend.mk true true "Error sending telegram"
  else if env.respOk then
    TgSend.mk false true "Message sent successfully"
  else
    TgSend.mk true true ("Failed to send: " ++ env.respText)

/-- C9: with no Telegram credentials configured (empty bot token or chat
id), `send_telegram_tool` returns an error result, attempts no network
call, and (being a total function of its environment) raises nothing. -/
theorem c9_no_creds (token chatId message : String) (env : TgEnv)
    (h : token = "" ∨ chatId = "") :
    (send_telegram token chatId message env).is_error = true
    ∧ (send_telegram token chatId message env).networkCalled = false := by
  unfold send_telegram
  rw [if_pos h]
  exact ⟨rfl, rfl⟩

/-- Witness for c9_no_creds at an empty token with a configured chat id. -/
theorem c9_no_creds_witness :
    (send_telegram "" "12345" "hello" (TgEnv.mk false true "")).is_error = true
    ∧ (send_telegram "" "12345" "hello" (TgEnv.mk false true "")).networkCalled = false :=
  c9_no_creds "" "12345" "hello" (TgEnv.mk false true "") (Or.inl rfl)

/-- C8 counterexample: a service-escalation dispatch (`invoke_agent`) that
fails with the recognised transport-race text is NOT swallowed silently —
with credentials configured it sends the fallback notification.  The
race special case exists only in `invoke_update_agent`. -/
theorem c8_counterexample :
    isTransportRace "ProcessTransport is not ready" = true
    ∧ invoke_agent (AgentRun.raised "ProcessTransport is not ready") true true
        = DispatchResult.failedNotified
    ∧ DispatchResult.failedNotified ≠ DispatchResult.swallowedSilently := by
  decide

/-- C8 amended: neither dispatch path ever raises (both are total into
`DispatchResult`); in the repository-update path a transport-race error is
swallowed silently and any other error is notified when credentials exist;
in the service path every error — the transport race included — is notified
when credentials exist, and that path never swallows silently. -/
theorem c8_dispatch_errors :
    (∀ (msg : String) (creds postOk : Bool), isTransportRace msg = true →
        invoke_update_agent (AgentRun.raised msg) creds postOk
          = DispatchResult.swallowedSilently)
    ∧ (∀ (msg : String) (postOk : Bool), isTransportRace msg = false →
        invoke_update_agent (AgentRun.raised msg) true postOk
          = if postOk then DispatchResult.failedNotified
            else DispatchResult.failedNotifySwallowed)
    ∧ (∀ (msg : String) (postOk : Bool),
        invoke_agent (AgentRun.raised msg) true postOk
          = if postOk then DispatchResult.failedNotified
            else DispatchResult.failedNotifySwallowed)
    ∧ (∀ (run : AgentRun) (creds postOk : Bool),
        invoke_agent run creds postOk ≠ DispatchResult.swallowedSilently) := by
  refine ⟨?_, ?_, ?_, ?_⟩
  · intro msg creds postOk h
    simp [invoke_update_agent, h]
  · intro msg postOk h
    simp [invoke_update_agent, h]
  · intro msg postOk
    simp [invoke_agent]
  · intro run creds postOk
    cases run with
    | finished => simp [invoke_agent]
    | raised msg =>
      simp only [invoke_agent]
      split_ifs <;> simp

/-- Witness for c8_dispatch_errors at the TaskGroup race text. -/
theorem c8_dispatch_errors_witness :
    invoke_update_agent (AgentRun.raised "unhandled errors in a TaskGroup") true true
      = DispatchResult.swallowedSilently :=
  c8_dispatch_errors.1 "unhandled errors in a TaskGroup" true true (by decide)

/-- C7 counterexample: in the monitor loop's inline drift check, a `git
fetch` that completes with a non-zero exit code is ignored (there is no
check=True on it), and when the stale remote-tracking ref still equals the
local head the repository is reported up to date — a fetch failure conflated
with "no drift". -/
theorem c7_counterexample :
    (RepoEnv.mk true (FetchRes.completed 1) "abc123" "abc123").fetch
        = FetchRes.completed 1
    ∧ (1 : Int) ≠ 0
    ∧ monitorRepoCheck (RepoEnv.mk true (FetchRes.completed 1) "abc123" "abc123")
        = RepoOutcome.upToDate := by
  decide

/-- C7 amended: in the `check_git_updates` tool a fetch failure raises
(check=True), is caught, and is returned as an error result distinct from
any up-to-date report; in the monitor loop's inline check only a raising
fetch (e.g. timeout) becomes a logged detector failure, while a fetch
completing with a non-zero exit code is ignored and the stale comparison can
report up to date. -/
theorem c7_fetch_failure :
    (∀ env : ToolEnv, env.repoKnown = true → env.pathExists = true →
        env.fetchOk = false →
        check_git_updates env = GitToolOutcome.errorCaught
        ∧ gitToolIsError (check_git_updates env) = true
        ∧ ∀ b, check_git_updates env ≠ GitToolOutcome.report b)
    ∧ (∀ env : RepoEnv, env.pathExists = true → env.fetch = FetchRes.raised →
        monitorRepoCheck env = RepoOutcome.errorLogged)
    ∧ (∀ (code : Int) (lc rc : String), code ≠ 0 → lc = rc →
        monitorRepoCheck (RepoEnv.mk true (FetchRes.completed code) lc rc)
          = RepoOutcome.upToDate) := by
  refine ⟨?_, ?_, ?_⟩
  · intro env h1 h2 h3
    have hc : check_git_updates env = GitToolOutcome.errorCaught := by
      simp [check_git_updates, h1, h2, h3]
    refine ⟨hc, ?_, ?_⟩
    · rw [hc]; rfl
    · intro b; rw [hc]; simp
  · intro env h1 h2
    simp [monitorRepoCheck, h1, h2]
  · intro code lc rc _ h2
    simp [monitorRepoCheck, h2]

/-- Witness for c7_fetch_failure: the tool at a known repo whose fetch
raises yields the error result. -/
theorem c7_fetch_failure_witness :
    check_git_updates (ToolEnv.mk true true false true "abc123" "def456")
      = GitToolOutcome.errorCaught :=
  (c7_fetch_failure.1 (ToolEnv.mk true true false true "abc123" "def456")
    rfl rfl rfl).1

/-- C6: when the update interval has elapsed, `last_update_check` is set to
the current time as the first action of the phase (before any repository
check runs), its new value does not depend on any check's outcome, and on a
later tick inside the interval no re-check occurs. -/
theorem c6_last_checked (interval lastCheck now now2 : Int)
    (repos : List RepoEnv) (hne : repos.isEmpty = false)
    (hdue : now - lastCheck ≥ interval) :
    (updatePhase interval lastCheck now repos).1 = now
    ∧ (updatePhaseEvents interval lastCheck now repos).head?
        = some (UEv.setLastCheck now)
    ∧ (now2 - now < interval →
        (updatePhase interval now now2 repos).1 = now
        ∧ updatePhaseEvents interval now now2 repos = []) := by
  refine ⟨?_, ?_, ?_⟩
  · unfold updatePhase
    rw [if_pos ⟨hne, hdue⟩]
  · unfold updatePhaseEvents
    rw [if_pos ⟨hne, hdue⟩]
    rfl
  · intro hlt
    have hneg : ¬ (repos.isEmpty = false ∧ now2 - now ≥ interval) := by
      intro hc
      omega
    constructor
    · unfold updatePhase
      rw [if_neg hneg]
    · unfold updatePhaseEvents
      rw [if_neg hneg]

/-- Witness for c6_last_checked: one repository whose drift check fails, at
the default four-hour interval. -/
theorem c6_last_checked_witness :
    (updatePhase 14400 0 14400 [RepoEnv.mk true FetchRes.raised "a" "b"]).1
      = 14400 :=
  (c6_last_checked 14400 0 14400 14500 [RepoEnv.mk true FetchRes.raised "a" "b"]
    rfl (by omega)).1

/-- C3 counterexample: a configured descriptor with none of the health
signals set makes `check_service_health` fall through every check and
return True (healthy), not False (unhealthy) as the claim states. -/
theorem c3_counterexample :
    check_service_health (some (ServiceConfig.mk none none none none none none))
      (ProbeEnv.mk ProcResult.exn ProcResult.exn ProcResult.exn ProcResult.exn)
      = true := by
  decide

/-- C3 amended: only a service name absent from the services map is treated
as unhealthy; a descriptor that is present but has no health signal
configured passes vacuously and the probe reports healthy. -/
theorem c3_no_signal_probe (cfg : ServiceConfig) (env : ProbeEnv)
    (h1 : cfg.health_check_command = none) (h2 : cfg.launchd_label = none)
    (h3 : cfg.systemd_unit = none) (h4 : cfg.port = none) :
    check_service_health (some cfg) env = true
    ∧ (∀ env2 : ProbeEnv, check_service_health none env2 = false) := by
  constructor
  · simp [check_service_health, check_service_health_run, probeLaunchd,
      probeSystemd, probePort, h1, h2, h3, h4]
  · intro env2
    rfl

/-- Witness for c3_no_signal_probe at the all-empty descriptor. -/
theorem c3_no_signal_probe_witness :
    check_service_health (some (ServiceConfig.mk none none none none (some "r") none))
      (ProbeEnv.mk (ProcResult.ok 1 "") ProcResult.exn ProcResult.exn ProcResult.exn)
      = true :=
  (c3_no_signal_probe (ServiceConfig.mk none none none none (some "r") none)
    (ProbeEnv.mk (ProcResult.ok 1 "") ProcResult.exn ProcResult.exn ProcResult.exn)
    rfl rfl rfl rfl).1

/-- C4 counterexample: the `launchctl list` probe sub-operation is invoked
with no timeout bound at all, contradicting the claim that every probe
sub-operation is invoked under an enforced timeout. -/
theorem c4_counterexample :
    SubprocCall.mk ["launchctl", "list"] none
      ∈ (check_service_health_run
          (some (ServiceConfig.mk none (some "com.example.svc") none none none none))
          (ProbeEnv.mk ProcResult.exn (ProcResult.ok 0 "") ProcResult.exn
            ProcResult.exn)).2
    ∧ (SubprocCall.mk ["launchctl", "list"] none).timeout = none := by
  constructor
  · have h2 : (check_service_health_run
        (some (ServiceConfig.mk none (some "com.example.svc") none none none none))
        (ProbeEnv.mk ProcResult.exn (ProcResult.ok 0 "") ProcResult.exn
          ProcResult.exn)).2
        = [SubprocCall.mk ["launchctl", "list"] none] := by rfl
    rw [h2]
    exact List.mem_singleton.mpr rfl
  · rfl

theorem probePort_calls (cfg : ServiceConfig) (env : ProbeEnv)
    (acc : List SubprocCall) :
    ∀ call ∈ (probePort cfg env acc).2, call ∈ acc ∨ call.timeout = none := by
  intro call hc
  unfold probePort at hc
  cases hp : cfg.port with
  | none =>
    rw [hp] at hc
    exact Or.inl hc
  | some p =>
    rw [hp] at hc
    cases hl : env.lsofPort <;> rw [hl] at hc <;>
      simp only [List.mem_append, List.mem_singleton] at hc <;>
      rcases hc with h | h <;>
      first
        | exact Or.inl h
        | exact Or.inr (by rw [h])

theorem probeSystemd_calls (cfg : ServiceConfig) (env : ProbeEnv)
    (acc : List SubprocCall) :
    ∀ call ∈ (probeSystemd cfg env acc).2, call ∈ acc ∨ call.timeout = none := by
  intro call hc
  unfold probeSystemd at hc
  cases hs : cfg.systemd_unit with
  | none =>
    rw [hs] at hc
    exact probePort_calls cfg env acc call hc
  | some u =>
    rw [hs] at hc
    have hstep : ∀ x ∈ acc ++ [SubprocCall.mk ["systemctl", "is-active", u] none],
        x ∈ acc ∨ x.timeout = none := by
      intro x hx
      simp only [List.mem_append, List.mem_singleton] at hx
      rcases hx with h | h
      · exact Or.inl h
      · exact Or.inr (by rw [h])
    cases hl : env.systemctlIsActive with
    | exn =>
      rw [hl] at hc
      exact hstep call hc
    | ok code out =>
      rw [hl] at hc
      dsimp only at hc
      split at hc
      · rcases probePort_calls cfg env _ call hc with h | h
        · exact hstep call h
        · exact Or.inr h
      · exact hstep call hc

theorem probeLaunchd_calls (cfg : ServiceConfig) (env : ProbeEnv)
    (acc : List SubprocCall) :
    ∀ call ∈ (probeLaunchd cfg env acc).2, call ∈ acc ∨ call.timeout = none := by
  intro call hc
  unfold probeLaunchd at hc
  cases hs : cfg.launchd_label with
  | none =>
    rw [hs] at hc
    exact probeSystemd_calls cfg env acc call hc
  | some label =>
    rw [hs] at hc
    have hstep : ∀ x ∈ acc ++ [SubprocCall.mk ["launchctl", "list"] none],
        x ∈ acc ∨ x.timeout = none := by
      intro x hx
      simp only [List.mem_append, List.mem_singleton] at hx
      rcases hx with h | h
      · exact Or.inl h
      · exact Or.inr (by rw [h])
    cases hl : env.launchctlList with
    | exn =>
      rw [hl] at hc
      exact hstep call hc
    | ok code out =>
      rw [hl] at hc
      dsimp only at hc
      split at hc
      · rcases probeSystemd_calls cfg env _ call hc with h | h
        · exact hstep call h
        · exact Or.inr h
      · exact hstep call hc

/-- C4 amended: the probe is a total boolean function of its environment (a
raising sub-operation degrades to "signal failed", never to a propagated
exception), the custom health command is its only sub-operation run under a
timeout (10s), and every OS-adapter or port sub-operation it issues carries
no timeout bound. -/
theorem c4_probe_calls (cfg : ServiceConfig) (env : ProbeEnv) :
    (∀ cmd, cfg.health_check_command = some cmd →
        (check_service_health_run (some cfg) env).2
          = [SubprocCall.mk [cmd] (some 10)]
        ∧ (env.healthCmd = ProcResult.exn →
            check_service_health (some cfg) env = false))
    ∧ (cfg.health_check_command = none →
        ∀ call ∈ (check_service_health_run (some cfg) env).2,
          call.timeout = none)
    ∧ (cfg.health_check_command = none → ∀ l, cfg.launchd_label = some l →
        env.launchctlList = ProcResult.exn →
        check_service_health (some cfg) env = false)
    ∧ (cfg.health_check_command = none → cfg.launchd_label = none →
        ∀ u, cfg.systemd_unit = some u →
        env.systemctlIsActive = ProcResult.exn →
        check_service_health (some cfg) env = false)
    ∧ (cfg.health_check_command = none → cfg.launchd_label = none →
        cfg.systemd_unit = none → ∀ p, cfg.port = some p →
        env.lsofPort = ProcResult.exn →
        check_service_health (some cfg) env = false) := by
  refine ⟨?_, ?_, ?_, ?_, ?_⟩
  · intro cmd hcmd
    constructor
    · unfold check_service_health_run
      dsimp only
      rw [hcmd]
      cases env.healthCmd <;> rfl
    · intro hexn
      simp [check_service_health, check_service_health_run, hcmd, hexn]
  · intro hcmd call hc
    unfold check_service_health_run at hc
    dsimp only at hc
    rw [hcmd] at hc
    rcases probeLaunchd_calls cfg env [] call hc with h | h
    · exact absurd h (List.not_mem_nil call)
    · exact h
  · intro hcmd l hl hexn
    simp [check_service_health, check_service_health_run, hcmd, probeLaunchd,
      hl, hexn]
  · intro hcmd hl u hu hexn
    simp [check_service_health, check_service_health_run, hcmd, probeLaunchd,
      hl, probeSystemd, hu, hexn]
  · intro hcmd hl hu p hp hexn
    simp [check_service_health, check_service_health_run, hcmd, probeLaunchd,
      hl, probeSystemd, hu, probePort, hp, hexn]

/-- Witness for c4_probe_calls: a custom-command descriptor whose command
raises is probed through exactly one call, bounded at 10 seconds. -/
theorem c4_probe_calls_witness :
    (check_service_health_run
        (some (ServiceConfig.mk (some "curl -fsS host") none none none none none))
        (ProbeEnv.mk ProcResult.exn ProcResult.exn ProcResult.exn ProcResult.exn)).2
      = [SubprocCall.mk ["curl -fsS host"] (some 10)] :=
  ((c4_probe_calls (ServiceConfig.mk (some "curl -fsS host") none none none none none)
    (ProbeEnv.mk ProcResult.exn ProcResult.exn ProcResult.exn ProcResult.exn)).1
    "curl -fsS host" rfl).1

/-- C5: the restart method is selected with OS-adapter (launchd, then
systemd) precedence over a custom restart command over no method (an
immediate failure); a command that completed is followed by the fixed
5-second settle and the re-probe verdict is returned as the restart's own
result — in particular a command that exits 0 but leaves the service
unhealthy after settling yields failure. -/
theorem c5_restart_contract (cfg : ServiceConfig) (env : RestartEnv) :
    (cfg.launchd_label.isSome = true →
        restartMethodOf cfg = RestartMethod.launchd)
    ∧ (cfg.launchd_label = none → cfg.systemd_unit.isSome = true →
        restartMethodOf cfg = RestartMethod.systemd)
    ∧ (cfg.launchd_label = none → cfg.systemd_unit = none →
        cfg.restart_command.isSome = true →
        restartMethodOf cfg = RestartMethod.custom)
    ∧ (cfg.launchd_label = none → cfg.systemd_unit = none →
        cfg.restart_command = none →
        simple_restart_run cfg env
          = (false, RestartTrace.mk RestartMethod.noMethod none))
    ∧ ((simple_restart_run cfg env).2.method = restartMethodOf cfg)
    ∧ (restartMethodOf cfg ≠ RestartMethod.noMethod →
        methodOutcome (restartMethodOf cfg) env = CmdOutcome.ok →
        simple_restart_run cfg env
          = (check_service_health (some cfg) env.settleProbe,
             RestartTrace.mk (restartMethodOf cfg) (some 5)))
    ∧ (methodOutcome (restartMethodOf cfg) env = CmdOutcome.exn →
        (simple_restart_run cfg env).1 = false)
    ∧ (cfg.launchd_label = none → cfg.systemd_unit = none →
        cfg.restart_command.isSome = true →
        env.customRestart = CmdOutcome.ok →
        check_service_health (some cfg) env.settleProbe = false →
        simple_restart (some cfg) env = false) := by
  refine ⟨?_, ?_, ?_, ?_, ?_, ?_, ?_, ?_⟩
  · intro h
    simp [restartMethodOf, h]
  · intro h1 h2
    simp [restartMethodOf, h1, h2]
  · intro h1 h2 h3
    simp [restartMethodOf, h1, h2, h3]
  · intro h1 h2 h3
    have hm : restartMethodOf cfg = RestartMethod.noMethod := by
      simp [restartMethodOf, h1, h2, h3]
    simp [simple_restart_run, hm]
  · by_cases hm : restartMethodOf cfg = RestartMethod.noMethod
    · simp [simple_restart_run, hm]
    · simp only [simple_restart_run, if_neg hm]
      cases methodOutcome (restartMethodOf cfg) env <;> rfl
  · intro hm hok
    simp only [simple_restart_run, if_neg hm, hok]
  · intro hexn
    by_cases hm : restartMethodOf cfg = RestartMethod.noMethod
    · simp [simple_restart_run, hm]
    · simp only [simple_restart_run, if_neg hm, hexn]
  · intro h1 h2 h3 hok hunhealthy
    have hm : restartMethodOf cfg = RestartMethod.custom := by
      simp [restartMethodOf, h1, h2, h3]
    have hne : restartMethodOf cfg ≠ RestartMethod.noMethod := by
      rw [hm]
      intro hcontra
      exact RestartMethod.noConfusion hcontra
    have hout : methodOutcome (restartMethodOf cfg) env = CmdOutcome.ok := by
      rw [hm]
      exact hok
    show (simple_restart_run cfg env).1 = false
    simp only [simple_restart_run, if_neg hne, hout, hunhealthy]

/-- Witness for c5_restart_contract: a port-only descriptor whose custom
restart command exits 0 but whose port is still not listening after the
settle — the restart reports failure. -/
theorem c5_restart_contract_witness :
    simple_restart
      (some (ServiceConfig.mk none none none (some 8080) (some "restart.sh") none))
      (RestartEnv.mk CmdOutcome.exn CmdOutcome.exn CmdOutcome.ok
        (ProbeEnv.mk ProcResult.exn ProcResult.exn ProcResult.exn
          (ProcResult.ok 0 ""))) = false :=
  (c5_restart_contract
    (ServiceConfig.mk none none none (some 8080) (some "restart.sh") none)
    (RestartEnv.mk CmdOutcome.exn CmdOutcome.exn CmdOutcome.ok
      (ProbeEnv.mk ProcResult.exn ProcResult.exn ProcResult.exn
        (ProcResult.ok 0 "")))).2.2.2.2.2.2.2 rfl rfl rfl rfl (by rfl)

theorem serviceStep_bad_low (maxR c : Nat) (agentOk : Bool)
    (h : c + 1 ≤ maxR) :
    serviceStep maxR c (TickInput.mk false false agentOk)
      = StepResult.mk (c + 1) true false (c + 1)
          [Ev.probeEv false, Ev.restartEv false] := by
  simp [serviceStep, h]

theorem serviceStep_bad_high (maxR c : Nat) (agentOk : Bool)
    (h : ¬ (c + 1 ≤ maxR)) :
    serviceStep maxR c (TickInput.mk false false agentOk)
      = StepResult.mk 0 false true (c + 1)
          [Ev.probeEv false, Ev.dispatchEv, Ev.sleepEv 300] := by
  simp [serviceStep, h]

theorem runTicks_bad (maxR : Nat) (agentOk : Bool) :
    ∀ (numT c : Nat), c + numT ≤ maxR →
      runTicks maxR c (List.replicate numT (TickInput.mk false false agentOk))
        = (c + numT, List.replicate numT false) := by
  intro numT
  induction numT with
  | zero =>
    intro c h
    simp [runTicks]
  | succ n ih =>
    intro c h
    rw [List.replicate_succ]
    simp only [runTicks]
    rw [serviceStep_bad_low maxR c agentOk (by omega)]
    rw [ih (c + 1) (by omega)]
    simp [List.replicate_succ]
    omega

theorem runTicks_append (maxR : Nat) (xs ys : List TickInput) : ∀ c,
    runTicks maxR c (xs ++ ys)
      = ((runTicks maxR (runTicks maxR c xs).1 ys).1,
         (runTicks maxR c xs).2 ++ (runTicks maxR (runTicks maxR c xs).1 ys).2) := by
  induction xs with
  | nil =>
    intro c
    simp [runTicks]
  | cons x xs ih =>
    intro c
    rw [List.cons_append]
    simp only [runTicks]
    rw [ih]
    simp

/-- C1: with `max_simple_restarts = N`, a service that starts healthy
(counter 0) and is then unhealthy for N+1 consecutive ticks with every
restart failing produces exactly one agent dispatch — at tick N+1 and at no
earlier tick — the counter is exactly 0 afterwards whatever the dispatch
outcome, and in the loop's event order the dispatch is immediately followed
by the 300-second sleep, which precedes every further probe of any
service. -/
theorem c1_escalation_once (N : Nat) (agentOk : Bool)
    (rest : List (Nat × TickInput)) :
    runTicks N 0 (List.replicate (N + 1) (TickInput.mk false false agentOk))
      = (0, List.replicate N false ++ [true])
    ∧ (serviceStep N N (TickInput.mk false false agentOk)).events
      = [Ev.probeEv false, Ev.dispatchEv, Ev.sleepEv 300]
    ∧ (servicePass N ((N, TickInput.mk false false agentOk) :: rest)).1
      = Ev.probeEv false :: Ev.dispatchEv :: Ev.sleepEv 300
          :: (servicePass N rest).1 := by
  have hstep := serviceStep_bad_high N N agentOk (by omega)
  refine ⟨?_, ?_, ?_⟩
  · rw [List.replicate_succ']
    rw [runTicks_append]
    rw [runTicks_bad N agentOk N 0 (by omega)]
    simp only [runTicks]
    rw [Nat.zero_add, hstep]
  · rw [hstep]
  · simp [servicePass, hstep]

/-- C2 counterexample: on the escalation tick (service unhealthy, no restart
succeeding) the counter does not increase by 1 — it is reset to 0 after the
dispatch.  With `max_simple_restarts = 3` and counter 3, an unhealthy tick
ends with counter 0, not 4. -/
theorem c2_counterexample :
    (TickInput.mk false false true).healthy = false
    ∧ (TickInput.mk false false true).restartOk = false
    ∧ (serviceStep 3 3 (TickInput.mk false false true)).count = 0
    ∧ (serviceStep 3 3 (TickInput.mk false false true)).count ≠ 3 + 1 := by
  decide

/-- C2 amended: the counter's value after a tick is always either 0 or its
old value plus exactly 1; it is 0 after a healthy probe or a successful
restart attempt; on an unhealthy tick with a failing restart it increases by
exactly 1 while the incremented value stays within the threshold, and when
the incremented value exceeds the threshold the tick escalates and the
counter is reset to 0; the restart-vs-escalate decision is a function of the
counter and the threshold alone. -/
theorem c2_counter_step (maxR c : Nat) (inp : TickInput) :
    ((serviceStep maxR c inp).count = 0
        ∨ (serviceStep maxR c inp).count = c + 1)
    ∧ (inp.healthy = true → (serviceStep maxR c inp).count = 0)
    ∧ (inp.healthy = false → inp.restartOk = true → c + 1 ≤ maxR →
        (serviceStep maxR c inp).count = 0)
    ∧ (inp.healthy = false → inp.restartOk = false → c + 1 ≤ maxR →
        (serviceStep maxR c inp).count = c + 1)
    ∧ (inp.healthy = false → maxR < c + 1 →
        (serviceStep maxR c inp).dispatched = true
        ∧ (serviceStep maxR c inp).count = 0)
    ∧ ((serviceStep maxR c inp).restartAttempted
        = (!inp.healthy && decide (c + 1 ≤ maxR)))
    ∧ ((serviceStep maxR c inp).dispatched
        = (!inp.healthy && decide (maxR < c + 1))) := by
  obtain ⟨hh, hr, ha⟩ := inp
  cases hh <;> cases hr <;> by_cases hc : c + 1 ≤ maxR <;>
    by_cases hc0 : 0 < c <;> simp [serviceStep, hc, hc0] <;> omega

/-- Witness for c2_counter_step on a failing tick within the threshold. -/
theorem c2_counter_step_witness :
    (serviceStep 3 1 (TickInput.mk false false true)).count = 1 + 1 :=
  (c2_counter_step 3 1 (TickInput.mk false false true)).2.2.2.1 rfl rfl
    (by omega)

theorem serviceStep_bound (maxR c : Nat) (inp : TickInput) (h : c ≤ maxR) :
    (serviceStep maxR c inp).count ≤ maxR
    ∧ (serviceStep maxR c inp).peak ≤ maxR + 1 := by
  obtain ⟨hh, hr, ha⟩ := inp
  cases hh <;> cases hr <;> by_cases hc : c + 1 ≤ maxR <;>
    by_cases hc0 : 0 < c <;> simp [serviceStep, hc, hc0] <;> omega

theorem countTrace_bound (maxR : Nat) (inputs : List TickInput) :
    ∀ c, c ≤ maxR → ∀ x ∈ countTrace maxR c inputs, x ≤ maxR := by
  induction inputs with
  | nil =>
    intro c _ x hx
    simp [countTrace] at hx
  | cons inp rest ih =>
    intro c hc x hx
    simp only [countTrace, List.mem_cons] at hx
    rcases hx with h | h
    · rw [h]
      exact (serviceStep_bound maxR c inp hc).1
    · exact ih (serviceStep maxR c inp).count
        (serviceStep_bound maxR c inp hc).1 x h

/-- C10: if every service starts a pass with its counter at most
`max_simple_restarts`, then at no point inside the pass does any counter
exceed `max_simple_restarts + 1`, and after the pass every counter is again
at most `max_simple_restarts`; consequently a service followed from counter
0 across any sequence of ticks never ends a tick above the threshold. -/
theorem c10_counter_bound (maxR : Nat) (pairs : List (Nat × TickInput))
    (inputs : List TickInput) (h : ∀ p ∈ pairs, p.1 ≤ maxR) :
    (∀ x ∈ (servicePass maxR pairs).2, x ≤ maxR)
    ∧ (∀ p ∈ pairs, (serviceStep maxR p.1 p.2).peak ≤ maxR + 1)
    ∧ (∀ x ∈ countTrace maxR 0 inputs, x ≤ maxR) := by
  refine ⟨?_, ?_, countTrace_bound maxR inputs 0 (Nat.zero_le maxR)⟩
  · induction pairs with
    | nil =>
      intro x hx
      simp [servicePass] at hx
    | cons q qs ih =>
      intro x hx
      simp only [servicePass, List.mem_cons] at hx
      rcases hx with hx | hx
      · rw [hx]
        exact (serviceStep_bound maxR q.1 q.2 (h q (by simp))).1
      · exact ih (fun p hp => h p (by simp [hp])) x hx
  · intro p hp
    exact (serviceStep_bound maxR p.1 p.2 (h p hp)).2

/-- Witness for c10_counter_bound: a single service at the threshold on a
failing tick peaks at the threshold plus one and ends the pass at 0. -/
theorem c10_counter_bound_witness :
    (serviceStep 3 (3, TickInput.mk false false true).1
      (3, TickInput.mk false false true).2).peak ≤ 3 + 1 :=
  (c10_counter_bound 3 [(3, TickInput.mk false false true)] []
    (by simp)).2.1 (3, TickInput.mk false false true) (by simp)

end Watchdog
